import Mathlib

/-!
Shallow embedding of the trip planning and recalculation core of the
field-service dispatch application, together with proofs settling the
specification claims about it.

Conventions of the embedding:
- JavaScript numbers are modelled as `Rat` where fractional values occur
  (mileage, rates, payouts) and as `Nat`/`Int` where the source only ever
  holds integers (seconds, minutes, counters, timestamps).
- JavaScript string truthiness tests on addresses are modelled as
  comparison with the empty string; truthiness of an optional numeric
  field is modelled on `Option` with an explicit zero test.
- Asynchronous callbacks are modelled as explicit event sequences
  (state machine steps), one step per delivered response.
-/

namespace Spec2Proof

/-- Lightweight per-stop unit used during planning and editing
(types.ts: SuggestedStop has workOrderId, address, serviceTimeMinutes). -/
structure SuggestedStop where
  workOrderId : String
  address : String
  serviceTimeMinutes : Int
  deriving Repr, DecidableEq

/-- The editable trip held by the Trip Editor (the fields of SuggestedTrip
relevant to recalculation and metric display). -/
structure EdTrip where
  stops : List SuggestedStop
  startLocation : String
  endLocation : String
  totalMiles : Rat
  travelMinutes : Int
  serviceMinutes : Int
  totalMinutes : Int
  deriving Repr, DecidableEq

/-! ## Metrics Engine: display rates (AddressAutocomplete.tsx, MetricsDisplay)

Source line: `const hours = totalMinutes / 60, perHourRate = hours > 0 ?
estimatedPayout / hours : 0, perMileRate = totalMiles > 0 ?
estimatedPayout / totalMiles : 0;` -/

/-- Hourly rate as computed by MetricsDisplay. -/
def perHourRate (estimatedPayout totalMinutes : Rat) : Rat :=
  let hours := totalMinutes / 60
  if hours > 0 then estimatedPayout / hours else 0

/-- Per-mile rate as computed by MetricsDisplay. -/
def perMileRate (estimatedPayout totalMiles : Rat) : Rat :=
  if totalMiles > 0 then estimatedPayout / totalMiles else 0

/-! ## Route Provider Adapter: chunking

Both `recalculateTrip` (AddressAutocomplete.tsx) and `drawTripRoute`
(WorkOrderMapView) run the same loop:

  for (let i = 0; i < locations.length - 1; i += (W + 1)) \x7b
    const origin = locations[i];
    const chunkEndIndex = Math.min(i + W + 1, locations.length - 1);
    const destination = locations[chunkEndIndex];
    const waypoints = locations.slice(i + 1, chunkEndIndex);
    ...
  \x7d

with W = MAX_WAYPOINTS_PER_REQUEST = 25.  We embed the loop as a
recursion over the suffix `locations.drop i`: the loop guard
`i < locations.length - 1` is exactly `2 ≤ (locations.drop i).length`,
and advancing `i` by `W + 1` is dropping `W + 1` elements. -/

/-- The waypoint limit of the external routing service. -/
def MAX_WAYPOINTS_PER_REQUEST : Nat := 25

/-- One chunked route request: origin, intermediate waypoints, destination. -/
structure RouteChunk (α : Type) where
  origin : α
  waypoints : List α
  destination : α
  deriving Repr, DecidableEq

/-- Fuel-indexed body of the chunking loop (the fuel only serves
structural termination; it is always called with fuel at least the list
length, which the loop can never exhaust since it always advances). -/
def chunkRouteAux (W : Nat) : Nat → List α → List (RouteChunk α)
  | 0, _ => []
  | _ + 1, [] => []
  | _ + 1, [_] => []
  | fuel + 1, a :: b :: rest =>
    let l := a :: b :: rest
    let k := min (W + 1) (l.length - 1)
    { origin := a,
      waypoints := (l.drop 1).take (k - 1),
      destination := l.getD k a } :: chunkRouteAux W fuel (l.drop (W + 1))

/-- The chunking loop of `recalculateTrip` / `drawTripRoute`.  On the
suffix `l = locations.drop i` with at least two elements, the chunk end
offset is `min (W + 1) (l.length - 1)`, the waypoints are the elements
strictly between offsets `0` and that offset, and the loop advances by
`W + 1` elements. -/
def chunkRoute (W : Nat) (locations : List α) : List (RouteChunk α) :=
  chunkRouteAux W locations.length locations

/-- The fuel of the chunking loop is irrelevant as long as it covers the
list length. -/
theorem chunkRouteAux_fuel (W : Nat) : (f1 f2 : Nat) → (l : List α) →
    l.length ≤ f1 → l.length ≤ f2 → chunkRouteAux W f1 l = chunkRouteAux W f2 l
  | 0, f2, l, h1, _ => by
    match l, h1 with
    | [], _ => cases f2 <;> rfl
  | f1 + 1, 0, l, _, h2 => by
    match l, h2 with
    | [], _ => rfl
  | _ + 1, _ + 1, [], _, _ => rfl
  | _ + 1, _ + 1, [a], _, _ => rfl
  | f1 + 1, f2 + 1, a :: b :: rest, h1, h2 => by
    show _ :: chunkRouteAux W f1 ((a :: b :: rest).drop (W + 1))
        = _ :: chunkRouteAux W f2 ((a :: b :: rest).drop (W + 1))
    have hlen : ((a :: b :: rest).drop (W + 1)).length
        = (a :: b :: rest).length - (W + 1) := List.length_drop _ _
    have hl : (a :: b :: rest).length = rest.length + 2 := by simp
    exact congrArg _ (chunkRouteAux_fuel W f1 f2 _ (by omega) (by omega))

/-- The full ordered list of locations a chunk traverses. -/
def RouteChunk.locations (c : RouteChunk α) : List α :=
  c.origin :: (c.waypoints ++ [c.destination])

/-- The consecutive-pair legs of an ordered location list: the legs a
single directions request over that list would produce. -/
def routeLegs : List α → List (α × α)
  | [] => []
  | [_] => []
  | a :: b :: rest => (a, b) :: routeLegs (b :: rest)

/-- The legs of one chunked request. -/
def RouteChunk.legs (c : RouteChunk α) : List (α × α) :=
  routeLegs c.locations

theorem chunkRoute_nil (W : Nat) : chunkRoute W ([] : List α) = [] := rfl

theorem chunkRoute_singleton (W : Nat) (a : α) : chunkRoute W [a] = [] := rfl

theorem chunkRoute_of_short (W : Nat) (l : List α) (h : l.length ≤ 1) :
    chunkRoute W l = [] := by
  match l, h with
  | [], _ => exact chunkRoute_nil W
  | [a], _ => exact chunkRoute_singleton W a

theorem chunkRoute_cons_cons (W : Nat) (a b : α) (rest : List α) :
    chunkRoute W (a :: b :: rest) =
      { origin := a,
        waypoints := ((a :: b :: rest).drop 1).take
          (min (W + 1) ((a :: b :: rest).length - 1) - 1),
        destination := (a :: b :: rest).getD
          (min (W + 1) ((a :: b :: rest).length - 1)) a } ::
      chunkRoute W ((a :: b :: rest).drop (W + 1)) := by
  show _ :: chunkRouteAux W (rest.length + 1) ((a :: b :: rest).drop (W + 1))
      = _ :: chunkRouteAux W ((a :: b :: rest).drop (W + 1)).length
          ((a :: b :: rest).drop (W + 1))
  have hlen : ((a :: b :: rest).drop (W + 1)).length
      = (a :: b :: rest).length - (W + 1) := List.length_drop _ _
  have hl : (a :: b :: rest).length = rest.length + 2 := by simp
  exact congrArg _ (chunkRouteAux_fuel W _ _ _ (by omega) (by omega))

theorem take_append_getD (m : List α) (j : Nat) (d : α) (hj : j < m.length) :
    m.take j ++ [m.getD j d] = m.take (j + 1) := by
  rw [List.take_succ, List.getD_eq_getElem?_getD, List.getElem?_eq_getElem hj]
  rfl

theorem chunk_locations_take_aux (a : α) (m : List α) (k : Nat)
    (hk1 : 1 ≤ k) (hkm : k ≤ m.length) :
    a :: (m.take (k - 1) ++ [(a :: m).getD k a]) = (a :: m).take (k + 1) := by
  match k, hk1, hkm with
  | j + 1, _, hkm =>
    simp only [List.getD_cons_succ, Nat.add_sub_cancel, List.take_succ_cons]
    exact congrArg (List.cons a) (take_append_getD m j a (by omega))

/-- The first chunk of the loop traverses exactly the first
`min (W + 1) (l.length - 1) + 1` locations. -/
theorem chunk_locations_take (W : Nat) (a b : α) (rest : List α) :
    RouteChunk.locations
      { origin := a,
        waypoints := ((a :: b :: rest).drop 1).take
          (min (W + 1) ((a :: b :: rest).length - 1) - 1),
        destination := (a :: b :: rest).getD
          (min (W + 1) ((a :: b :: rest).length - 1)) a }
      = (a :: b :: rest).take (min (W + 1) ((a :: b :: rest).length - 1) + 1) := by
  have hlen : (a :: b :: rest).length - 1 = (b :: rest).length := by simp
  have hk1 : 1 ≤ min (W + 1) ((a :: b :: rest).length - 1) := by
    refine le_min (by omega) ?_
    rw [hlen]
    simp
  have hkm : min (W + 1) ((a :: b :: rest).length - 1) ≤ (b :: rest).length := by
    rw [hlen]
    exact min_le_right _ _
  rw [RouteChunk.locations]
  exact chunk_locations_take_aux a (b :: rest) _ hk1 hkm

/-- Splitting the legs of a location list at an interior index: no leg is
lost or duplicated across the split point. -/
theorem routeLegs_split (u : List α) (x : α) (v : List α) :
    routeLegs (u ++ [x]) ++ routeLegs (x :: v) = routeLegs (u ++ x :: v) := by
  induction u with
  | nil => simp [routeLegs]
  | cons a u ih =>
    cases u with
    | nil => simp [routeLegs]
    | cons b u' =>
      show (a, b) :: (routeLegs ((b :: u') ++ [x]) ++ routeLegs (x :: v))
          = (a, b) :: routeLegs ((b :: u') ++ x :: v)
      exact congrArg (List.cons (a, b)) ih

theorem routeLegs_take_drop (l : List α) (j : Nat) (_hj : 0 < j)
    (hlt : j < l.length) :
    routeLegs (l.take (j + 1)) ++ routeLegs (l.drop j) = routeLegs l := by
  have hdrop : l.drop j = l[j] :: l.drop (j + 1) := List.drop_eq_getElem_cons hlt
  have htake : l.take (j + 1) = l.take j ++ [l[j]] := by
    rw [List.take_succ, List.getElem?_eq_getElem hlt]
    rfl
  have hsplit : l = l.take j ++ l[j] :: l.drop (j + 1) := by
    conv_lhs => rw [← List.take_append_drop j l]
    rw [hdrop]
  rw [htake, hdrop]
  conv_rhs => rw [hsplit]
  exact routeLegs_split _ _ _

/-- Concatenating the legs of all chunks yields exactly the legs of the
single hypothetical unchunked request. -/
theorem chunkRoute_flatten_legs (W : Nat) : (l : List α) →
    ((chunkRoute W l).map RouteChunk.legs).flatten = routeLegs l
  | [] => by simp [chunkRoute_nil, routeLegs]
  | [a] => by simp [chunkRoute_singleton, routeLegs]
  | a :: b :: rest => by
    have hlen : (a :: b :: rest).length = rest.length + 2 := by simp
    rw [chunkRoute_cons_cons]
    simp only [List.map_cons, List.flatten_cons, RouteChunk.legs]
    rw [chunk_locations_take]
    by_cases hcase : (a :: b :: rest).length ≤ W + 2
    · -- single chunk covering the whole list
      have hkval : min (W + 1) ((a :: b :: rest).length - 1)
          = (a :: b :: rest).length - 1 := min_eq_right (by omega)
      have hrest : chunkRoute W ((a :: b :: rest).drop (W + 1)) = [] := by
        apply chunkRoute_of_short
        rw [List.length_drop]
        omega
      rw [hrest, hkval]
      simp only [List.map_nil, List.flatten_nil, List.append_nil]
      have h2 : (a :: b :: rest).length - 1 + 1 = (a :: b :: rest).length := by omega
      rw [h2, List.take_length]
    · -- first chunk covers W + 2 locations, recurse on the rest
      have hkval : min (W + 1) ((a :: b :: rest).length - 1) = W + 1 :=
        min_eq_left (by omega)
      have hrec := chunkRoute_flatten_legs W ((a :: b :: rest).drop (W + 1))
      rw [hrec, hkval]
      exact routeLegs_take_drop _ (W + 1) (by omega) (by omega)
termination_by l => l.length
decreasing_by simp_all; omega

/-- The head chunk of a chunked route starts at the head location. -/
theorem chunkRoute_head_origin (W : Nat) (x y : α) (more : List α) (c : RouteChunk α)
    (h : (chunkRoute W (x :: y :: more)).head? = some c) : c.origin = x := by
  rw [chunkRoute_cons_cons] at h
  simp only [List.head?_cons, Option.some.injEq] at h
  rw [← h]

/-- The destination of each chunk equals the origin of the next chunk. -/
theorem chunkRoute_chain (W : Nat) : (l : List α) →
    List.Chain' (fun c d => c.destination = d.origin) (chunkRoute W l)
  | [] => by simp [chunkRoute_nil]
  | [a] => by simp [chunkRoute_singleton]
  | a :: b :: rest => by
    rw [chunkRoute_cons_cons]
    rw [List.chain'_cons']
    refine ⟨?_, chunkRoute_chain W ((a :: b :: rest).drop (W + 1))⟩
    intro c hc
    cases hm : (a :: b :: rest).drop (W + 1) with
    | nil =>
      rw [hm, chunkRoute_nil] at hc
      simp at hc
    | cons x m2 =>
      cases m2 with
      | nil =>
        rw [hm, chunkRoute_singleton] at hc
        simp at hc
      | cons y more =>
        rw [hm] at hc
        have hx : c.origin = x := chunkRoute_head_origin W x y more c hc
        have hlen2 : (a :: b :: rest).length - (W + 1) = more.length + 2 := by
          rw [← List.length_drop, hm]
          simp
        have hkval : min (W + 1) ((a :: b :: rest).length - 1) = W + 1 :=
          min_eq_left (by omega)
        have hdest : (a :: b :: rest).getD (W + 1) a = x := by
          have h0 : ((a :: b :: rest).drop (W + 1)).getD 0 a
              = (a :: b :: rest).getD (W + 1) a := by
            simp [List.getD_eq_getElem?_getD, List.getElem?_drop]
          rw [hm] at h0
          simp only [List.getD_cons_zero] at h0
          exact h0.symm
        show (a :: b :: rest).getD (min (W + 1) ((a :: b :: rest).length - 1)) a
            = c.origin
        rw [hkval, hdest, hx]
termination_by l => l.length
decreasing_by simp_all; omega

/-- A location list long enough to need more than one chunk produces at
least two chunks. -/
theorem chunkRoute_length_ge_two (W : Nat) (l : List α)
    (h : W + 2 < l.length) : 1 < (chunkRoute W l).length := by
  match l, h with
  | a :: b :: rest, h =>
    rw [chunkRoute_cons_cons]
    have hlen : (a :: b :: rest).length = rest.length + 2 := by simp
    have hdl : 2 ≤ ((a :: b :: rest).drop (W + 1)).length := by
      rw [List.length_drop]
      omega
    match hm : (a :: b :: rest).drop (W + 1), hdl with
    | x :: y :: m2, _ =>
      rw [chunkRoute_cons_cons]
      simp

/-! ## Route Provider Adapter: request issuing and aggregation
(AddressAutocomplete.tsx, recalculateTrip) -/

/-- The status vocabulary of the external directions service
(google.maps.DirectionsStatus). -/
inductive DirectionsStatus where
  | OK
  | NOT_FOUND
  | ZERO_RESULTS
  | MAX_WAYPOINTS_EXCEEDED
  | INVALID_REQUEST
  | OVER_QUERY_LIMIT
  | REQUEST_DENIED
  | UNKNOWN_ERROR
  deriving Repr, DecidableEq

/-- The wire name of a directions status, as interpolated into the
generic error message. -/
def DirectionsStatus.name : DirectionsStatus → String
  | .OK => "OK"
  | .NOT_FOUND => "NOT_FOUND"
  | .ZERO_RESULTS => "ZERO_RESULTS"
  | .MAX_WAYPOINTS_EXCEEDED => "MAX_WAYPOINTS_EXCEEDED"
  | .INVALID_REQUEST => "INVALID_REQUEST"
  | .OVER_QUERY_LIMIT => "OVER_QUERY_LIMIT"
  | .REQUEST_DENIED => "REQUEST_DENIED"
  | .UNKNOWN_ERROR => "UNKNOWN_ERROR"

/-- One leg of a directions result.  The source reads
`leg.distance?.value || 0` and `leg.duration?.value || 0`, so both fields
are optional and default to zero; the service reports meters and
seconds as integers. -/
structure RouteLeg where
  distanceMeters : Option Nat
  durationSeconds : Option Nat
  deriving Repr, DecidableEq

/-- The resolved value of one chunked request:
`\x7bresult, status\x7d` where `result` may be null. -/
structure ChunkResponse where
  status : DirectionsStatus
  result : Option (List RouteLeg)
  deriving Repr, DecidableEq

/-- Error message for a NOT_FOUND / ZERO_RESULTS chunk failure. -/
def noRouteFoundMsg : String :=
  "Could not find a route. Please check if all addresses are correct and accessible."

/-- Error message for any other chunk failure, carrying the status. -/
def genericRouteErrorMsg (status : DirectionsStatus) : String :=
  "Route calculation failed. (Error: " ++ status.name ++ ")"

/-- Error message set when a chunk origin or destination is empty. -/
def missingEndpointMsg : String :=
  "Start or End location is missing. Cannot calculate route."

/-- A chunk response takes the success branch of the aggregation loop
exactly when its status is OK and its result is non-null
(`response.status === OK && response.result`). -/
def ChunkResponse.isOk (r : ChunkResponse) : Bool :=
  r.status = DirectionsStatus.OK && r.result.isSome

/-- The error message chosen in the failure branch of the aggregation
loop: NOT_FOUND and ZERO_RESULTS are distinguished from every other
failure. -/
def chunkErrorMessage (r : ChunkResponse) : String :=
  if r.status = DirectionsStatus.NOT_FOUND ∨ r.status = DirectionsStatus.ZERO_RESULTS then
    noRouteFoundMsg
  else
    genericRouteErrorMsg r.status

/-- The meters-to-miles conversion factor of the source
(`* 0.000621371`). -/
def METERS_TO_MILES : Rat := 621371 / 1000000000

/-- The accumulation performed for one OK response:
`totalMiles += (leg.distance?.value || 0) * 0.000621371;
 travelSeconds += leg.duration?.value || 0;` over `routes[0].legs`. -/
def accumulateLegs (legs : List RouteLeg) (totalMiles : Rat) (travelSeconds : Nat) :
    Rat × Nat :=
  (totalMiles + ((legs.map (fun leg => ((leg.distanceMeters.getD 0 : Rat) * METERS_TO_MILES))).sum),
   travelSeconds + (legs.map (fun leg => leg.durationSeconds.getD 0)).sum)

/-- The aggregation loop over the joined chunk responses: accumulate legs
of OK responses; on the first non-OK response record its error message
and break. -/
def aggregateResponses : List ChunkResponse → Rat → Nat → (Rat × Nat) ⊕ String
  | [], totalMiles, travelSeconds => Sum.inl (totalMiles, travelSeconds)
  | r :: rest, totalMiles, travelSeconds =>
    if r.isOk then
      let acc := accumulateLegs (r.result.getD []) totalMiles travelSeconds
      aggregateResponses rest acc.1 acc.2
    else
      Sum.inr (chunkErrorMessage r)

/-- Completing a recalculation: on all-success, the metrics of the trip
held by the editor are replaced (travel minutes are
`Math.round(travelSeconds / 60)`, service minutes are summed from the
snapshot the recalculation was computed against); on any failure the
trip is left unchanged and the recorded error is the first failing
chunk response error message. -/
def finishRecalculation (snapshot : EdTrip) (current : EdTrip)
    (responses : List ChunkResponse) : EdTrip × Option String :=
  match aggregateResponses responses 0 0 with
  | Sum.inl (totalMiles, travelSeconds) =>
    let travelMinutes : Int := (travelSeconds + 30) / 60
    let serviceMinutes : Int := (snapshot.stops.map (·.serviceTimeMinutes)).sum
    ({ current with
        totalMiles := totalMiles,
        travelMinutes := travelMinutes,
        serviceMinutes := serviceMinutes,
        totalMinutes := travelMinutes + serviceMinutes }, none)
  | Sum.inr msg => (current, some msg)

/-- The ordered location list a recalculation works over:
`[tripToCalc.startLocation, ...allStops, tripToCalc.endLocation]`. -/
def tripLocations (trip : EdTrip) : List String :=
  trip.startLocation :: (trip.stops.map (·.address) ++ [trip.endLocation])

/-- A chunk passes the endpoint check of the request loop exactly when
origin and destination are both truthy (non-empty) strings. -/
def RouteChunk.endpointsPresent (c : RouteChunk String) : Bool :=
  !(c.origin = "") && !(c.destination = "")

/-- The request-issuing loop: walk the chunks in order; a chunk whose
origin or destination is empty stops the loop with the missing-endpoint
error, otherwise the chunk request is issued (the promise executor runs
synchronously on push) and the loop continues. -/
def issueChunkRequests : List (RouteChunk String) →
    List (RouteChunk String) × Option String
  | [] => ([], none)
  | c :: rest =>
    if c.endpointsPresent then
      let out := issueChunkRequests rest
      (c :: out.1, out.2)
    else
      ([], some missingEndpointMsg)

/-- The requests issued (and the endpoint error, if any) by a
recalculation of a trip, before any response arrives. -/
def recalcIssuedRequests (trip : EdTrip) :
    List (RouteChunk String) × Option String :=
  issueChunkRequests (chunkRoute MAX_WAYPOINTS_PER_REQUEST (tripLocations trip))

/-! ## Trip Editor State Machine: concurrent edits and recalculations

`handleStopsChange` replaces the stop array and calls
`recalculateTrip(updatedTrip)` with the updated snapshot.  Each
recalculation computes metrics from its snapshot and, when its joined
responses arrive, applies them to whatever trip the editor currently
holds via `setEditableTrip(prev => (\x7b ...prev, totalMiles,
travelMinutes, serviceMinutes, totalMinutes \x7d))` — with no check that
the response still belongs to the most recent edit.  We model the
asynchronous session as an explicit event sequence: an edit event
replaces the stops and records the in-flight computation; a resolve
event delivers the response of one in-flight recalculation. -/

/-- The metric fields a recalculation response writes back. -/
structure RecalcMetrics where
  totalMiles : Rat
  travelMinutes : Int
  serviceMinutes : Int
  deriving Repr, DecidableEq

/-- The route environment: what the external directions service reports
for a list of locations, as total miles and travel seconds. -/
structure RouteEnv where
  milesFor : List String → Rat
  secondsFor : List String → Nat

/-- The metrics a recalculation computes against the snapshot trip it
was launched with. -/
def computeRecalcMetrics (env : RouteEnv) (snapshot : EdTrip) : RecalcMetrics :=
  { totalMiles := env.milesFor (tripLocations snapshot),
    travelMinutes := ((env.secondsFor (tripLocations snapshot) + 30) / 60 : Nat),
    serviceMinutes := (snapshot.stops.map (·.serviceTimeMinutes)).sum }

/-- Applying a resolved recalculation to the currently held trip:
the spread in `setEditableTrip` overwrites exactly the four metric
fields, keeping everything else (stops, endpoints) from the current
trip. -/
def applyRecalcMetrics (current : EdTrip) (m : RecalcMetrics) : EdTrip :=
  { current with
      totalMiles := m.totalMiles,
      travelMinutes := m.travelMinutes,
      serviceMinutes := m.serviceMinutes,
      totalMinutes := m.travelMinutes + m.serviceMinutes }

/-- The editor session state: the held trip and the in-flight
recalculations (each remembered as the metrics its eventual response
will carry, fixed at launch time from its snapshot). -/
structure EditorSession where
  trip : EdTrip
  inflight : List RecalcMetrics
  deriving Repr, DecidableEq

/-- One asynchronous event of an editing session: a stop-list edit
(which launches a recalculation of the updated snapshot), or the
arrival of the response of the i-th in-flight recalculation. -/
inductive EditorEvent where
  | editStops (newStops : List SuggestedStop)
  | resolve (i : Nat)
  deriving Repr, DecidableEq

/-- The session step relation.  `editStops` is `handleStopsChange`:
set the stops, launch a recalculation of the new snapshot.  `resolve i`
delivers the i-th pending response: the editor applies it to the
current trip unconditionally. -/
def editorStep (env : RouteEnv) (s : EditorSession) : EditorEvent → EditorSession
  | .editStops newStops =>
    let updated := { s.trip with stops := newStops }
    { trip := updated,
      inflight := s.inflight ++ [computeRecalcMetrics env updated] }
  | .resolve i =>
    match s.inflight.get? i with
    | some m => { trip := applyRecalcMetrics s.trip m, inflight := s.inflight.eraseIdx i }
    | none => s

/-- Running an editing session over an event sequence. -/
def editorRun (env : RouteEnv) (s : EditorSession) (events : List EditorEvent) :
    EditorSession :=
  events.foldl (editorStep env) s

/-! ## Trip Constraint Planner: response handling
(geminiService.ts, generateOptimalRoute) -/

/-- One stop of the oracle response schema: workOrderId and address. -/
structure OracleStop where
  workOrderId : String
  address : String
  deriving Repr, DecidableEq

/-- One suggestion of the oracle response schema (the fields the
response schema requires, plus the optional violation warning). -/
structure OracleTrip where
  name : String
  stops : List OracleStop
  totalMinutes : Int
  totalMiles : Rat
  estimatedPayout : Rat
  reasoning : String
  startLocation : String
  endLocation : String
  violation_warning : Option String
  deriving Repr, DecidableEq

/-- A schema-valid parsed oracle response: a suggestions array and an
optional explanation.  The schema constrains only the shape of each
suggestion; nothing ties the stops to the input work orders. -/
structure OracleResponse where
  suggestions : List OracleTrip
  explanation : Option String
  deriving Repr, DecidableEq

/-- A suggestion as returned to the caller: the oracle trip with the
synthetic id and display color attached. -/
structure ReturnedSuggestion where
  id : String
  color : String
  name : String
  stops : List OracleStop
  totalMinutes : Int
  totalMiles : Rat
  estimatedPayout : Rat
  reasoning : String
  startLocation : String
  endLocation : String
  violation_warning : Option String
  deriving Repr, DecidableEq

/-- The fixed display color palette of the planner. -/
def tripColors : List String :=
  ["#4F46E5", "#059669", "#DB2777", "#D97706", "#6D28D9"]

/-- The response post-processing of `generateOptimalRoute`: each parsed
suggestion is passed through unchanged except for the attached synthetic
id (timestamp + index) and palette color (index modulo palette size). -/
def attachIdsAndColors (nowTimestamp : Nat) (resp : OracleResponse) :
    List ReturnedSuggestion :=
  (resp.suggestions.enum).map (fun p =>
    { id := "suggested-" ++ toString nowTimestamp ++ "-" ++ toString p.1,
      color := tripColors.getD (p.1 % tripColors.length) "",
      name := p.2.name,
      stops := p.2.stops,
      totalMinutes := p.2.totalMinutes,
      totalMiles := p.2.totalMiles,
      estimatedPayout := p.2.estimatedPayout,
      reasoning := p.2.reasoning,
      startLocation := p.2.startLocation,
      endLocation := p.2.endLocation,
      violation_warning := p.2.violation_warning })

/-- The union (as a flat list, in order) of workOrderIds across the
stops of a list of returned suggestions. -/
def returnedWorkOrderIds (suggestions : List ReturnedSuggestion) : List String :=
  (suggestions.map (fun t => t.stops.map (·.workOrderId))).flatten

/-- The union of workOrderIds across the stops of an oracle response. -/
def responseWorkOrderIds (resp : OracleResponse) : List String :=
  (resp.suggestions.map (fun t => t.stops.map (·.workOrderId))).flatten

/-! ## Trip Editor: adding stops (AddressAutocomplete.tsx, handleAddStops) -/

/-- The fields of a WorkOrder that the editor operations read. -/
structure WorkOrderRec where
  id : String
  typeName : String
  address : String
  baseRate : Rat
  miscFee : Rat
  deriving Repr, DecidableEq

/-- The fields of a WorkOrderType read while resolving service times. -/
structure WorkOrderTypeRec where
  typeName : String
  defaultServiceTimeSeconds : Nat
  deriving Repr, DecidableEq

/-- Lookup getOrder: state.workOrders.find(wo => wo.id === id). -/
def getOrder (workOrders : List WorkOrderRec) (id : String) : Option WorkOrderRec :=
  workOrders.find? (fun wo => wo.id = id)

/-- Lookup getType: state.workOrderTypes.find(t => t.typeName === typeName). -/
def getType (workOrderTypes : List WorkOrderTypeRec) (typeName : String) :
    Option WorkOrderTypeRec :=
  workOrderTypes.find? (fun t => t.typeName = typeName)

/-- The stop built for one requested work-order id:
`\x7b workOrderId: id, address: order?.address or empty,
serviceTimeMinutes: Math.round((type?.defaultServiceTimeSeconds || 0) / 60) \x7d`. -/
def buildStopForId (workOrders : List WorkOrderRec)
    (workOrderTypes : List WorkOrderTypeRec) (id : String) : SuggestedStop :=
  let order := getOrder workOrders id
  let type := order.bind (fun o => getType workOrderTypes o.typeName)
  { workOrderId := id,
    address := (order.map (·.address)).getD "",
    serviceTimeMinutes :=
      (((type.map (·.defaultServiceTimeSeconds)).getD 0 + 30) / 60 : Nat) }

/-- Implementation of handleAddStops: build a stop per requested id, drop the ones whose
resolved address is empty, drop the ones whose id is already a stop of
the current trip, and append the survivors to the current stop list. -/
def handleAddStops (workOrders : List WorkOrderRec)
    (workOrderTypes : List WorkOrderTypeRec)
    (currentStops : List SuggestedStop) (workOrderIds : List String) :
    List SuggestedStop :=
  let newStops := (workOrderIds.map (buildStopForId workOrders workOrderTypes)).filter
    (fun s => !(s.address = ""))
  let uniqueNewStops := newStops.filter
    (fun s => !((currentStops.map (·.workOrderId)).contains s.workOrderId))
  currentStops ++ uniqueNewStops

/-! ## Trip Lifecycle: persisted trips, numbering, timers -/

/-- Trip lifecycle status. -/
inductive TripStatus where
  | Planning
  | Planned
  | Active
  | Completed
  deriving Repr, DecidableEq

/-- A stop of a persisted Trip (types.ts: TripStop). -/
structure TripStop where
  workOrderId : String
  isCompleted : Bool
  timeSpentSeconds : Nat
  deriving Repr, DecidableEq

/-- A persisted Trip (the fields the numbering and lifecycle code
touches).  Timestamps are integers; `startTime` is optional and
nullable, and the source tests it for truthiness. -/
structure TripRec where
  id : String
  name : String
  tripNumber : Option String
  stops : List TripStop
  startTime : Option Int
  endTime : Option Int
  totalTimeSeconds : Nat
  status : TripStatus
  startLocation : String
  endLocation : String
  deriving Repr, DecidableEq

/-- A calendar date as read off a JavaScript Date: `getMonth()` is
0-based, `getDate()` is the day of month, `getFullYear()` is the
4-digit year. -/
structure JsDate where
  monthIndex : Nat
  dayOfMonth : Nat
  fullYear : Nat
  deriving Repr, DecidableEq

/-- Implementation of padStart(2, zero digit) on a numeric string. -/
def padTwo (s : String) : String :=
  if s.length ≥ 2 then s else String.mk (List.replicate (2 - s.length) '0') ++ s

/-- Implementation of toString().slice(-2): the last two characters. -/
def lastTwoChars (s : String) : String :=
  String.mk (s.data.drop (s.data.length - 2))

/-- The date part of a trip number:
`month = padStart of getMonth()+1`, `day = padStart of getDate()`,
`year = getFullYear().toString().slice(-2)`, concatenated MMDDYY. -/
def tripNumberDatePart (d : JsDate) : String :=
  padTwo (toString (d.monthIndex + 1)) ++ padTwo (toString d.dayOfMonth) ++
    lastTwoChars (toString d.fullYear)

/-- The date the trip number is derived from:
`newTrip.startTime ? new Date(newTrip.startTime) : new Date()`.
A null/absent startTime — and, by JavaScript number truthiness, a
startTime of exactly 0 — falls back to the current date.  `dateOfTs`
is the environment conversion from a timestamp to its (local) calendar
date. -/
def tripDateOf (startTime : Option Int) (dateOfTs : Int → JsDate)
    (today : JsDate) : JsDate :=
  match startTime with
  | some t => if t = 0 then today else dateOfTs t
  | none => today

/-- The JavaScript String.prototype.startsWith test: the characters of
`p` are a leading segment of the characters of `s`. -/
def jsStartsWith (s p : String) : Bool :=
  decide (s.data.take p.data.length = p.data)

/-- Whether a stored trip counts against a date part:
`t.tripNumber && t.tripNumber.startsWith(datePart)`. -/
def tripMatchesDatePart (datePart : String) (t : TripRec) : Bool :=
  match t.tripNumber with
  | some n => jsStartsWith n datePart
  | none => false

/-- The numbering step of dataService.addTrip: derive the date part, count the already-stored
trips whose trip number starts with it, and assign
`datePart ++ "-" ++ toString (count + 1)` as the new trip number. -/
def addTripNumbering (storedTrips : List TripRec) (trip : TripRec)
    (dateOfTs : Int → JsDate) (today : JsDate) : TripRec :=
  let tripDate := tripDateOf trip.startTime dateOfTs today
  let datePart := tripNumberDatePart tripDate
  let tripsOnSameDay := storedTrips.filter (tripMatchesDatePart datePart)
  { trip with tripNumber := some (datePart ++ "-" ++ toString (tripsOnSameDay.length + 1)) }

/-! ## Active trip timer (hooks/useTimer) and stop handler (TripScreen) -/

/-- The state of a `useTimer` instance: accumulated elapsed seconds and
whether the one-second interval is running. -/
structure TimerState where
  elapsedSeconds : Nat
  isActive : Bool
  deriving Repr, DecidableEq

/-- Mounting the timer: `useTimer(initialSeconds)` starts inactive at
the given accumulated value (the Active Trip screen passes
`activeTrip?.totalTimeSeconds || 0`). -/
def Timer.init (initialSeconds : Nat) : TimerState :=
  { elapsedSeconds := initialSeconds, isActive := false }

/-- Timer start: when inactive, flip to active and install the interval. -/
def Timer.start (t : TimerState) : TimerState :=
  if t.isActive then t else { t with isActive := true }

/-- One interval firing: `setElapsedSeconds(prev => prev + 1)`.  The
interval only exists while the timer is active, so a tick is delivered
once per second of active wall time. -/
def Timer.tick (t : TimerState) : TimerState :=
  if t.isActive then { t with elapsedSeconds := t.elapsedSeconds + 1 } else t

/-- Timer pause: when active, clear the interval. -/
def Timer.pause (t : TimerState) : TimerState :=
  if t.isActive then { t with isActive := false } else t

/-- Timer stop: pause and report the accumulated elapsed seconds. -/
def Timer.stopAndRead (t : TimerState) : Nat × TimerState :=
  (t.elapsedSeconds, Timer.pause t)

/-- Delivering `n` interval ticks in sequence. -/
def Timer.ticks : Nat → TimerState → TimerState
  | 0, t => t
  | n + 1, t => Timer.ticks n (Timer.tick t)

/-- The handleStopTrip handler of the Active Trip screen: read the timer, then
dispatch `\x7b ...activeTrip, status: Completed, endTime: now,
totalTimeSeconds: finalTime \x7d`. -/
def handleStopTrip (activeTrip : TripRec) (now : Int) (timer : TimerState) :
    TripRec × TimerState :=
  let finalTime := Timer.stopAndRead timer
  ({ activeTrip with
      status := TripStatus.Completed,
      endTime := some now,
      totalTimeSeconds := finalTime.1 }, finalTime.2)


/-! ## Claim theorems -/

/-- C8: the hourly-rate and per-mile-rate computations are total and
zero-guarded: with a zero denominator they return 0 (the computation is a
total function on rationals, so no NaN, Infinity or exception can arise),
and with positive denominators they return the payout divided by hours
and by miles respectively. -/
theorem rate_computations_zero_guarded (payout totalMinutes totalMiles : Rat) :
    (totalMinutes = 0 → perHourRate payout totalMinutes = 0) ∧
    (totalMiles = 0 → perMileRate payout totalMiles = 0) ∧
    (0 < totalMinutes → perHourRate payout totalMinutes = payout / (totalMinutes / 60)) ∧
    (0 < totalMiles → perMileRate payout totalMiles = payout / totalMiles) := by
  refine ⟨?_, ?_, ?_, ?_⟩
  · intro h
    simp [perHourRate, h]
  · intro h
    simp [perMileRate, h]
  · intro h
    have hpos : (0 : Rat) < totalMinutes / 60 := by positivity
    simp only [perHourRate]
    rw [if_pos hpos]
  · intro h
    simp only [perMileRate]
    rw [if_pos h]

/-- Witness for C8 at payout 100 with both denominators zero, and at
positive denominators 120 minutes and 50 miles. -/
theorem rate_computations_zero_guarded_witness :
    perHourRate 100 0 = 0 ∧ perMileRate 100 0 = 0 ∧
    perHourRate 100 120 = 100 / (120 / 60) ∧ perMileRate 100 50 = 100 / 50 :=
  ⟨(rate_computations_zero_guarded 100 0 0).1 rfl,
   (rate_computations_zero_guarded 100 0 0).2.1 rfl,
   (rate_computations_zero_guarded 100 120 50).2.2.1 (by norm_num),
   (rate_computations_zero_guarded 100 120 50).2.2.2 (by norm_num)⟩

/-- C6: a persisted trip receives the number datePart-N where N is one
plus the count of already-stored trips whose trip number starts with the
same date part; in particular with exactly 3 matching prior trips the new
suffix is -4 regardless of those trips own suffixes (the counter is
purely additive, counting matches rather than inspecting suffixes). -/
theorem trip_numbering_counts_same_day (storedTrips : List TripRec) (trip : TripRec)
    (dateOfTs : Int → JsDate) (today : JsDate) :
    (addTripNumbering storedTrips trip dateOfTs today).tripNumber =
      some (tripNumberDatePart (tripDateOf trip.startTime dateOfTs today) ++ "-" ++
        toString (storedTrips.countP
          (tripMatchesDatePart
            (tripNumberDatePart (tripDateOf trip.startTime dateOfTs today))) + 1)) ∧
    (storedTrips.countP
        (tripMatchesDatePart
          (tripNumberDatePart (tripDateOf trip.startTime dateOfTs today))) = 3 →
      (addTripNumbering storedTrips trip dateOfTs today).tripNumber =
        some (tripNumberDatePart (tripDateOf trip.startTime dateOfTs today) ++ "-4")) := by
  constructor
  · simp [addTripNumbering, List.countP_eq_length_filter]
  · intro h3
    simp only [addTripNumbering, Option.some.injEq]
    rw [← List.countP_eq_length_filter, h3]
    rw [String.append_assoc]
    have h4 : ("-" : String) ++ toString (3 + 1) = "-4" := by decide
    rw [h4]

/-- Witness for C6: three prior trips numbered on the date part 100825
with suffixes 1, 2 and 7; the fourth trip of that day is numbered
100825-4. -/
theorem trip_numbering_counts_same_day_witness :
    (addTripNumbering
        [{ id := "t1", name := "A", tripNumber := some "100825-1", stops := [],
           startTime := none, endTime := none, totalTimeSeconds := 0,
           status := TripStatus.Planned, startLocation := "", endLocation := "" },
         { id := "t2", name := "B", tripNumber := some "100825-2", stops := [],
           startTime := none, endTime := none, totalTimeSeconds := 0,
           status := TripStatus.Planned, startLocation := "", endLocation := "" },
         { id := "t3", name := "C", tripNumber := some "100825-7", stops := [],
           startTime := none, endTime := none, totalTimeSeconds := 0,
           status := TripStatus.Planned, startLocation := "", endLocation := "" }]
        { id := "t4", name := "D", tripNumber := none, stops := [],
          startTime := none, endTime := none, totalTimeSeconds := 0,
          status := TripStatus.Planned, startLocation := "", endLocation := "" }
        (fun _ => { monthIndex := 0, dayOfMonth := 1, fullYear := 1970 })
        { monthIndex := 9, dayOfMonth := 8, fullYear := 2025 }).tripNumber
      = some "100825-4" := by
  have h := trip_numbering_counts_same_day
    [{ id := "t1", name := "A", tripNumber := some "100825-1", stops := [],
       startTime := none, endTime := none, totalTimeSeconds := 0,
       status := TripStatus.Planned, startLocation := "", endLocation := "" },
     { id := "t2", name := "B", tripNumber := some "100825-2", stops := [],
       startTime := none, endTime := none, totalTimeSeconds := 0,
       status := TripStatus.Planned, startLocation := "", endLocation := "" },
     { id := "t3", name := "C", tripNumber := some "100825-7", stops := [],
       startTime := none, endTime := none, totalTimeSeconds := 0,
       status := TripStatus.Planned, startLocation := "", endLocation := "" }]
    { id := "t4", name := "D", tripNumber := none, stops := [],
      startTime := none, endTime := none, totalTimeSeconds := 0,
      status := TripStatus.Planned, startLocation := "", endLocation := "" }
    (fun _ => { monthIndex := 0, dayOfMonth := 1, fullYear := 1970 })
    { monthIndex := 9, dayOfMonth := 8, fullYear := 2025 }
  exact h.2 (by decide)

/-- C10 counterexample: a trip whose scheduled startTime is set to the
timestamp 0 is numbered from the current date, not from the date of its
startTime — JavaScript truthiness treats the number 0 as unset.  Here the
timestamp 0 converts to January 1 1970 (date part 010170) while the
creation date is October 11 2026 (date part 101126); the assigned number
uses the creation date. -/
theorem trip_number_date_source_counterexample :
    (addTripNumbering []
        { id := "t1", name := "T", tripNumber := none, stops := [],
          startTime := some 0, endTime := none, totalTimeSeconds := 0,
          status := TripStatus.Planned, startLocation := "A", endLocation := "B" }
        (fun _ => { monthIndex := 0, dayOfMonth := 1, fullYear := 1970 })
        { monthIndex := 9, dayOfMonth := 11, fullYear := 2026 }).tripNumber
      = some "101126-1" ∧
    tripNumberDatePart
        ((fun _ => { monthIndex := 0, dayOfMonth := 1, fullYear := 1970 } : Int → JsDate) 0)
      = "010170" ∧
    some "101126-1" ≠ some ("010170" ++ "-1") := by
  refine ⟨by decide, by decide, by decide⟩

/-- C10 amended: the date part of a newly persisted trip number is
derived from the scheduled startTime when one is set and nonzero (a
startTime of exactly 0 is treated as unset by the truthiness test of the
source), and from the current date at creation time otherwise; the suffix
counts the stored trips matching the chosen date part, so a trip
scheduled for a future day is numbered against that day, independent of
the creation date. -/
theorem trip_number_date_source_amended (storedTrips : List TripRec) (trip : TripRec)
    (dateOfTs : Int → JsDate) (today : JsDate) :
    (∀ t : Int, trip.startTime = some t → t ≠ 0 →
      (addTripNumbering storedTrips trip dateOfTs today).tripNumber =
        some (tripNumberDatePart (dateOfTs t) ++ "-" ++
          toString (storedTrips.countP
            (tripMatchesDatePart (tripNumberDatePart (dateOfTs t))) + 1))) ∧
    (trip.startTime = none →
      (addTripNumbering storedTrips trip dateOfTs today).tripNumber =
        some (tripNumberDatePart today ++ "-" ++
          toString (storedTrips.countP
            (tripMatchesDatePart (tripNumberDatePart today)) + 1))) ∧
    (trip.startTime = some 0 →
      (addTripNumbering storedTrips trip dateOfTs today).tripNumber =
        some (tripNumberDatePart today ++ "-" ++
          toString (storedTrips.countP
            (tripMatchesDatePart (tripNumberDatePart today)) + 1))) := by
  refine ⟨?_, ?_, ?_⟩
  · intro t hset hnz
    simp [addTripNumbering, tripDateOf, hset, hnz, List.countP_eq_length_filter]
  · intro hnone
    simp [addTripNumbering, tripDateOf, hnone, List.countP_eq_length_filter]
  · intro hzero
    simp [addTripNumbering, tripDateOf, hzero, List.countP_eq_length_filter]

/-- Witness for C10 amended: a trip scheduled for February 1 2030
(timestamp 5 in the demo conversion) created on October 11 2026 is
numbered 020130-1, against the scheduled day. -/
theorem trip_number_date_source_amended_witness :
    (addTripNumbering []
        { id := "t1", name := "T", tripNumber := none, stops := [],
          startTime := some 5, endTime := none, totalTimeSeconds := 0,
          status := TripStatus.Planned, startLocation := "A", endLocation := "B" }
        (fun t => if t = 5 then { monthIndex := 1, dayOfMonth := 1, fullYear := 2030 }
                  else { monthIndex := 0, dayOfMonth := 1, fullYear := 1970 })
        { monthIndex := 9, dayOfMonth := 11, fullYear := 2026 }).tripNumber
      = some ("020130" ++ "-" ++ toString (0 + 1)) := by
  have h := (trip_number_date_source_amended []
      { id := "t1", name := "T", tripNumber := none, stops := [],
        startTime := some 5, endTime := none, totalTimeSeconds := 0,
        status := TripStatus.Planned, startLocation := "A", endLocation := "B" }
      (fun t => if t = 5 then { monthIndex := 1, dayOfMonth := 1, fullYear := 2030 }
                else { monthIndex := 0, dayOfMonth := 1, fullYear := 1970 })
      { monthIndex := 9, dayOfMonth := 11, fullYear := 2026 }).1 5 rfl (by decide)
  rw [h]
  decide

/-- Timer helper: delivering n ticks to an active timer adds n seconds
and keeps it active. -/
theorem Timer.ticks_of_active (n : Nat) : ∀ e : Nat,
    Timer.ticks n { elapsedSeconds := e, isActive := true }
      = { elapsedSeconds := e + n, isActive := true } := by
  induction n with
  | zero => intro e; rfl
  | succ n ih =>
    intro e
    show Timer.ticks n (Timer.tick { elapsedSeconds := e, isActive := true })
        = { elapsedSeconds := e + (n + 1), isActive := true }
    have htick : Timer.tick { elapsedSeconds := e, isActive := true }
        = { elapsedSeconds := e + 1, isActive := true } := by
      simp [Timer.tick]
    rw [htick, ih (e + 1)]
    congr 1
    omega

/-- Timer helper: mounting and starting the timer yields an active timer
at the initial accumulated value. -/
theorem Timer.start_init (e : Nat) :
    Timer.start (Timer.init e) = { elapsedSeconds := e, isActive := true } := by
  simp [Timer.start, Timer.init]

/-- C7 counterexample: an Active trip whose stored totalTimeSeconds is
100 (the planned estimate the Active Trip screen seeds the timer with),
started at instant 0 and stopped at instant 10, is frozen at 110
seconds, not at T1 - T0 = 10. -/
theorem stop_trip_elapsed_counterexample :
    (handleStopTrip
        { id := "t1", name := "T", tripNumber := none,
          stops := [{ workOrderId := "w1", isCompleted := false, timeSpentSeconds := 0 }],
          startTime := some 0, endTime := none, totalTimeSeconds := 100,
          status := TripStatus.Active, startLocation := "A", endLocation := "B" }
        10
        (Timer.ticks (10 - 0) (Timer.start (Timer.init 100)))).1.totalTimeSeconds = 110 ∧
    (110 : Nat) ≠ 10 - 0 := by
  refine ⟨by decide, by decide⟩

/-- C7 amended: stopping an Active trip at instant T1 whose timer was
seeded with the stored totalTimeSeconds, started at instant T0 and
ticked once per active second, sets status Completed, endTime T1, and
totalTimeSeconds to the accumulated value stored-seconds + (T1 - T0) —
which equals T1 - T0 exactly when the stored value was 0 — without
altering any stop (in particular no completion flag changes). -/
theorem stop_trip_amended (trip : TripRec) (t0 t1 : Nat) (h01 : t0 ≤ t1)
    (hactive : trip.status = TripStatus.Active) :
    ((handleStopTrip trip (t1 : Int)
        (Timer.ticks (t1 - t0) (Timer.start (Timer.init trip.totalTimeSeconds)))).1.status
      = TripStatus.Completed) ∧
    ((handleStopTrip trip (t1 : Int)
        (Timer.ticks (t1 - t0) (Timer.start (Timer.init trip.totalTimeSeconds)))).1.endTime
      = some (t1 : Int)) ∧
    ((handleStopTrip trip (t1 : Int)
        (Timer.ticks (t1 - t0)
          (Timer.start (Timer.init trip.totalTimeSeconds)))).1.totalTimeSeconds
      = trip.totalTimeSeconds + (t1 - t0)) ∧
    ((handleStopTrip trip (t1 : Int)
        (Timer.ticks (t1 - t0) (Timer.start (Timer.init trip.totalTimeSeconds)))).1.stops
      = trip.stops) ∧
    (trip.totalTimeSeconds = 0 →
      ((handleStopTrip trip (t1 : Int)
          (Timer.ticks (t1 - t0)
            (Timer.start (Timer.init trip.totalTimeSeconds)))).1.totalTimeSeconds
        = t1 - t0)) := by
  rw [Timer.start_init, Timer.ticks_of_active]
  refine ⟨rfl, rfl, rfl, rfl, ?_⟩
  intro hz
  simp [handleStopTrip, Timer.stopAndRead, hz]

/-- Witness for C7 amended: a fresh Active trip with stored value 0,
started at 3 and stopped at 15, freezes totalTimeSeconds at 12. -/
theorem stop_trip_amended_witness :
    ((handleStopTrip
        { id := "t1", name := "T", tripNumber := none,
          stops := [{ workOrderId := "w1", isCompleted := false, timeSpentSeconds := 0 }],
          startTime := some 3, endTime := none, totalTimeSeconds := 0,
          status := TripStatus.Active, startLocation := "A", endLocation := "B" }
        15
        (Timer.ticks (15 - 3) (Timer.start (Timer.init 0)))).1.totalTimeSeconds = 15 - 3) := by
  have h := stop_trip_amended
      { id := "t1", name := "T", tripNumber := none,
        stops := [{ workOrderId := "w1", isCompleted := false, timeSpentSeconds := 0 }],
        startTime := some 3, endTime := none, totalTimeSeconds := 0,
        status := TripStatus.Active, startLocation := "A", endLocation := "B" }
      3 15 (by decide) rfl
  exact h.2.2.2.2 rfl

/-- C9 counterexample: the requested id list is deduplicated only against
the current stops, not against itself — requesting the same id twice on a
trip with no stops yields two stops with the same workOrderId, so
pairwise distinctness is not preserved. -/
theorem add_stops_dedup_counterexample :
    (([] : List SuggestedStop).map (fun s => s.workOrderId)).Nodup ∧
    ¬((handleAddStops
        [{ id := "a", typeName := "T", address := "X", baseRate := 0, miscFee := 0 }]
        [] [] ["a", "a"]).map (fun s => s.workOrderId)).Nodup := by
  refine ⟨by decide, by decide⟩

/-- C9 amended: add-stops preserves the current stops as a leading
segment; every appended stop has a non-empty resolved address and an id
not already present among the current stops; and if the current stop ids
are pairwise distinct and the requested id list itself is duplicate-free,
the resulting stop ids are pairwise distinct. -/
theorem add_stops_dedup_amended (workOrders : List WorkOrderRec)
    (workOrderTypes : List WorkOrderTypeRec)
    (currentStops : List SuggestedStop) (workOrderIds : List String) :
    ((handleAddStops workOrders workOrderTypes currentStops workOrderIds).take
        currentStops.length = currentStops) ∧
    (∀ s ∈ (handleAddStops workOrders workOrderTypes currentStops workOrderIds).drop
        currentStops.length,
      ¬(s.address = "") ∧ s.workOrderId ∉ currentStops.map (fun t => t.workOrderId)) ∧
    ((currentStops.map (fun s => s.workOrderId)).Nodup → workOrderIds.Nodup →
      ((handleAddStops workOrders workOrderTypes currentStops workOrderIds).map
        (fun s => s.workOrderId)).Nodup) := by
  have hdef : handleAddStops workOrders workOrderTypes currentStops workOrderIds
      = currentStops ++
        (((workOrderIds.map (buildStopForId workOrders workOrderTypes)).filter
            (fun s => !(s.address = ""))).filter
          (fun s => !((currentStops.map (fun t => t.workOrderId)).contains
            s.workOrderId))) := rfl
  have hmem : ∀ s ∈ ((workOrderIds.map (buildStopForId workOrders workOrderTypes)).filter
        (fun s => !(s.address = ""))).filter
      (fun s => !((currentStops.map (fun t => t.workOrderId)).contains s.workOrderId)),
      ¬(s.address = "") ∧ s.workOrderId ∉ currentStops.map (fun t => t.workOrderId) := by
    intro s hs
    rw [List.mem_filter] at hs
    obtain ⟨hs1, hs2⟩ := hs
    rw [List.mem_filter] at hs1
    obtain ⟨_, hp⟩ := hs1
    constructor
    · simpa using hp
    · simpa using hs2
  refine ⟨?_, ?_, ?_⟩
  · rw [hdef, List.take_left]
  · rw [hdef, List.drop_left]
    exact hmem
  · intro hcur hids
    rw [hdef, List.map_append]
    have hwidmap : (workOrderIds.map (buildStopForId workOrders workOrderTypes)).map
        (fun s => s.workOrderId) = workOrderIds := by
      rw [List.map_map]
      have : ((fun s : SuggestedStop => s.workOrderId) ∘
          buildStopForId workOrders workOrderTypes) = fun id => id := rfl
      rw [this, List.map_id']
    have hsub : ((((workOrderIds.map (buildStopForId workOrders workOrderTypes)).filter
          (fun s => !(s.address = ""))).filter
        (fun s => !((currentStops.map (fun t => t.workOrderId)).contains
          s.workOrderId))).map (fun s => s.workOrderId)).Sublist workOrderIds := by
      have hsub0 : ((((workOrderIds.map (buildStopForId workOrders workOrderTypes)).filter
            (fun s => !(s.address = ""))).filter
          (fun s => !((currentStops.map (fun t => t.workOrderId)).contains
            s.workOrderId))).map (fun s => s.workOrderId)).Sublist
          ((workOrderIds.map (buildStopForId workOrders workOrderTypes)).map
            (fun s => s.workOrderId)) :=
        List.Sublist.map _ ((List.filter_sublist _).trans (List.filter_sublist _))
      rw [hwidmap] at hsub0
      exact hsub0
    refine List.Nodup.append hcur (hsub.nodup hids) ?_
    intro a hacur haadd
    rw [List.mem_map] at haadd
    obtain ⟨s, hs, rfl⟩ := haadd
    exact (hmem s hs).2 hacur

/-- Witness for C9 amended: one existing stop, a request list containing
the existing id, a fresh id and an id resolving to an empty address; the
result keeps the current stop first, appends only the fresh non-empty
stop, and its ids are pairwise distinct. -/
theorem add_stops_dedup_amended_witness :
    ((handleAddStops
        [{ id := "a", typeName := "T", address := "X", baseRate := 0, miscFee := 0 },
         { id := "b", typeName := "T", address := "Y", baseRate := 0, miscFee := 0 },
         { id := "c", typeName := "T", address := "", baseRate := 0, miscFee := 0 }]
        []
        [{ workOrderId := "a", address := "X", serviceTimeMinutes := 0 }]
        ["a", "b", "c"]).map (fun s => s.workOrderId)).Nodup := by
  exact (add_stops_dedup_amended
      [{ id := "a", typeName := "T", address := "X", baseRate := 0, miscFee := 0 },
       { id := "b", typeName := "T", address := "Y", baseRate := 0, miscFee := 0 },
       { id := "c", typeName := "T", address := "", baseRate := 0, miscFee := 0 }]
      []
      [{ workOrderId := "a", address := "X", serviceTimeMinutes := 0 }]
      ["a", "b", "c"]).2.2 (by decide) (by decide)

/-- C3 counterexample: the planner performs no coverage validation on a
schema-valid oracle response; with one input work order (id o1) and the
schema-valid response carrying no suggestions, the union of returned
workOrderIds is empty rather than equal to the input ids. -/
theorem planner_coverage_counterexample :
    returnedWorkOrderIds (attachIdsAndColors 0
        { suggestions := [], explanation := none }) = [] ∧
    ([] : List String) ≠ ["o1"] := by
  refine ⟨rfl, by decide⟩

/-- Helper: mapping a function of the second component over an
enumerated list is mapping it over the list. -/
theorem enum_map_snd_comp (l : List β) (f : β → γ) :
    l.enum.map (fun p => f p.2) = l.map f := by
  have h : (fun p : Nat × β => f p.2) = f ∘ Prod.snd := rfl
  rw [h, ← List.map_map, List.enum_map_snd]

/-- C3 amended: generateOptimalRoute passes the stops of every oracle
suggestion through unchanged (only synthetic ids and display colors are
attached), so the union of returned workOrderIds is exactly the union in
the oracle response; it equals the input ids only when the oracle itself
complied with the coverage instruction, which the code does not check. -/
theorem planner_passes_stops_through (nowTimestamp : Nat) (resp : OracleResponse) :
    (attachIdsAndColors nowTimestamp resp).map (fun t => t.stops)
      = resp.suggestions.map (fun t => t.stops) ∧
    returnedWorkOrderIds (attachIdsAndColors nowTimestamp resp)
      = responseWorkOrderIds resp := by
  have h1 : (attachIdsAndColors nowTimestamp resp).map (fun t => t.stops)
      = resp.suggestions.map (fun t => t.stops) := by
    rw [attachIdsAndColors, List.map_map]
    exact enum_map_snd_comp resp.suggestions (fun t => t.stops)
  have h2 : (attachIdsAndColors nowTimestamp resp).map
        (fun t => t.stops.map (fun s => s.workOrderId))
      = resp.suggestions.map (fun t => t.stops.map (fun s => s.workOrderId)) := by
    have e1 : (fun t : ReturnedSuggestion => t.stops.map (fun s => s.workOrderId))
        = (fun st : List OracleStop => st.map (fun s => s.workOrderId)) ∘
          (fun t => t.stops) := rfl
    have e2 : (fun t : OracleTrip => t.stops.map (fun s => s.workOrderId))
        = (fun st : List OracleStop => st.map (fun s => s.workOrderId)) ∘
          (fun t => t.stops) := rfl
    rw [e1, e2, ← List.map_map, ← List.map_map, h1]
  exact ⟨h1, by rw [returnedWorkOrderIds, responseWorkOrderIds, h2]⟩

/-- C1: the editor applies whichever recalculation response resolves
last, with no request-identity check.  After edit A (one stop), edit B
(two stops), the response for B resolving, then the stale response for A
resolving, the displayed metrics are those computed against the A
snapshot (3 miles, 3 travel minutes, 5 service minutes, 8 total), not
those computed against the newer B snapshot (4 miles, 4 travel minutes,
12 service minutes) as the claim requires. -/
theorem stale_recalculation_overwrites_newer_edit :
    (editorRun
        { milesFor := fun locs => (locs.length : Rat),
          secondsFor := fun locs => 60 * locs.length }
        { trip := { stops := [], startLocation := "S", endLocation := "E",
                    totalMiles := 0, travelMinutes := 0, serviceMinutes := 0,
                    totalMinutes := 0 },
          inflight := [] }
        [EditorEvent.editStops
          [{ workOrderId := "w1", address := "A1", serviceTimeMinutes := 5 }],
         EditorEvent.editStops
          [{ workOrderId := "w1", address := "A1", serviceTimeMinutes := 5 },
           { workOrderId := "w2", address := "A2", serviceTimeMinutes := 7 }],
         EditorEvent.resolve 1,
         EditorEvent.resolve 0]).trip
      = { stops := [{ workOrderId := "w1", address := "A1", serviceTimeMinutes := 5 },
                    { workOrderId := "w2", address := "A2", serviceTimeMinutes := 7 }],
          startLocation := "S", endLocation := "E",
          totalMiles := 3, travelMinutes := 3, serviceMinutes := 5,
          totalMinutes := 8 } ∧
    computeRecalcMetrics
        { milesFor := fun locs => (locs.length : Rat),
          secondsFor := fun locs => 60 * locs.length }
        { stops := [{ workOrderId := "w1", address := "A1", serviceTimeMinutes := 5 },
                    { workOrderId := "w2", address := "A2", serviceTimeMinutes := 7 }],
          startLocation := "S", endLocation := "E",
          totalMiles := 0, travelMinutes := 0, serviceMinutes := 0, totalMinutes := 0 }
      = { totalMiles := 4, travelMinutes := 4, serviceMinutes := 12 } ∧
    (3 : Rat) ≠ 4 := by
  refine ⟨by decide, by decide, by decide⟩

/-- C2: for a location list long enough to need more than one chunk
under the 25-waypoint limit, the chunking produces at least two chunks,
the destination of every chunk equals the origin of the next chunk, the
concatenation of all chunk leg sequences is exactly the leg sequence of
the single hypothetical unchunked request (no leg omitted or
duplicated), and therefore any per-leg quantity (distance, duration)
summed chunk by chunk equals the unchunked total. -/
theorem chunking_matches_unchunked_request (locations : List α)
    (hmulti : MAX_WAYPOINTS_PER_REQUEST + 2 < locations.length) :
    1 < (chunkRoute MAX_WAYPOINTS_PER_REQUEST locations).length ∧
    List.Chain' (fun c d => c.destination = d.origin)
      (chunkRoute MAX_WAYPOINTS_PER_REQUEST locations) ∧
    ((chunkRoute MAX_WAYPOINTS_PER_REQUEST locations).map RouteChunk.legs).flatten
      = routeLegs locations ∧
    ∀ f : α × α → Rat,
      (((chunkRoute MAX_WAYPOINTS_PER_REQUEST locations).map RouteChunk.legs).map
          (fun legs => (legs.map f).sum)).sum
        = ((routeLegs locations).map f).sum := by
  refine ⟨chunkRoute_length_ge_two _ _ hmulti, chunkRoute_chain _ _,
    chunkRoute_flatten_legs _ _, ?_⟩
  intro f
  have hflat := chunkRoute_flatten_legs MAX_WAYPOINTS_PER_REQUEST locations
  have hcomp : (fun legs : List (α × α) => (legs.map f).sum)
      = List.sum ∘ List.map f := rfl
  rw [hcomp, ← List.map_map, ← List.sum_flatten, ← List.map_flatten, hflat]

/-- Witness for C2: 30 locations (more than one chunk at the 25-waypoint
limit) are chunked into leg sequences whose concatenation equals the
unchunked leg sequence. -/
theorem chunking_matches_unchunked_request_witness :
    MAX_WAYPOINTS_PER_REQUEST + 2 < (List.range 30).length ∧
    ((chunkRoute MAX_WAYPOINTS_PER_REQUEST (List.range 30)).map RouteChunk.legs).flatten
      = routeLegs (List.range 30) :=
  ⟨by decide,
   (chunking_matches_unchunked_request (List.range 30) (by decide)).2.2.1⟩

/-- Helper: when some response fails the OK test, the aggregation loop
returns the error message of the first failing response and discards any
accumulated totals. -/
theorem aggregate_error_of_find (responses : List ChunkResponse) (r : ChunkResponse)
    (hfind : responses.find? (fun x => !x.isOk) = some r) :
    ∀ (m : Rat) (s : Nat),
      aggregateResponses responses m s = Sum.inr (chunkErrorMessage r) := by
  induction responses with
  | nil => simp at hfind
  | cons r0 rest ih =>
    intro m s
    by_cases h0 : r0.isOk = true
    · have hp : ¬((fun x : ChunkResponse => !x.isOk) r0 = true) := by
        simp [h0]
      rw [@List.find?_cons_of_neg _ (fun x : ChunkResponse => !x.isOk) r0 rest hp]
        at hfind
      simp only [aggregateResponses]
      rw [if_pos h0]
      exact ih hfind _ _
    · have hp : ((fun x : ChunkResponse => !x.isOk) r0) = true := by
        simp [h0]
      rw [@List.find?_cons_of_pos _ (fun x : ChunkResponse => !x.isOk) r0 rest hp]
        at hfind
      obtain rfl : r0 = r := by injection hfind
      simp only [aggregateResponses]
      rw [if_neg h0]

/-- Helper: the failure-branch error message equals the no-route message
exactly for the NOT_FOUND and ZERO_RESULTS statuses. -/
theorem chunkErrorMessage_distinguishes (r : ChunkResponse) :
    chunkErrorMessage r = noRouteFoundMsg ↔
      r.status = DirectionsStatus.NOT_FOUND ∨
        r.status = DirectionsStatus.ZERO_RESULTS := by
  rcases r with ⟨st, res⟩
  cases st <;> simp [chunkErrorMessage] <;> decide

/-- C4: when at least one chunked route request fails, no partial
aggregation happens — the trip held by the editor keeps its previously
displayed metrics unchanged — and exactly one error is surfaced: the
message of the first failing response, which is the no-route message
exactly for NOT_FOUND/ZERO_RESULTS and the generic
route-calculation-failed message otherwise. -/
theorem chunk_failure_no_partial_aggregation (snapshot current : EdTrip)
    (responses : List ChunkResponse) (r : ChunkResponse)
    (hfirst : responses.find? (fun x => !x.isOk) = some r) :
    (finishRecalculation snapshot current responses).1 = current ∧
    (finishRecalculation snapshot current responses).2
      = some (chunkErrorMessage r) ∧
    (chunkErrorMessage r = noRouteFoundMsg ↔
      r.status = DirectionsStatus.NOT_FOUND ∨
        r.status = DirectionsStatus.ZERO_RESULTS) := by
  have hagg := aggregate_error_of_find responses r hfirst 0 0
  refine ⟨?_, ?_, chunkErrorMessage_distinguishes r⟩
  · simp only [finishRecalculation, hagg]
  · simp only [finishRecalculation, hagg]

/-- Witness for C4: one successful chunk followed by a NOT_FOUND chunk;
the trip metrics are unchanged and the surfaced error is the no-route
message. -/
theorem chunk_failure_no_partial_aggregation_witness :
    (finishRecalculation
        { stops := [], startLocation := "S", endLocation := "E",
          totalMiles := 7, travelMinutes := 8, serviceMinutes := 9,
          totalMinutes := 17 }
        { stops := [], startLocation := "S", endLocation := "E",
          totalMiles := 7, travelMinutes := 8, serviceMinutes := 9,
          totalMinutes := 17 }
        [{ status := DirectionsStatus.OK,
           result := some [{ distanceMeters := some 1000, durationSeconds := some 60 }] },
         { status := DirectionsStatus.NOT_FOUND, result := none }]).1
      = { stops := [], startLocation := "S", endLocation := "E",
          totalMiles := 7, travelMinutes := 8, serviceMinutes := 9,
          totalMinutes := 17 } ∧
    (finishRecalculation
        { stops := [], startLocation := "S", endLocation := "E",
          totalMiles := 7, travelMinutes := 8, serviceMinutes := 9,
          totalMinutes := 17 }
        { stops := [], startLocation := "S", endLocation := "E",
          totalMiles := 7, travelMinutes := 8, serviceMinutes := 9,
          totalMinutes := 17 }
        [{ status := DirectionsStatus.OK,
           result := some [{ distanceMeters := some 1000, durationSeconds := some 60 }] },
         { status := DirectionsStatus.NOT_FOUND, result := none }]).2
      = some noRouteFoundMsg := by
  have h := chunk_failure_no_partial_aggregation
      { stops := [], startLocation := "S", endLocation := "E",
        totalMiles := 7, travelMinutes := 8, serviceMinutes := 9,
        totalMinutes := 17 }
      { stops := [], startLocation := "S", endLocation := "E",
        totalMiles := 7, travelMinutes := 8, serviceMinutes := 9,
        totalMinutes := 17 }
      [{ status := DirectionsStatus.OK,
         result := some [{ distanceMeters := some 1000, durationSeconds := some 60 }] },
       { status := DirectionsStatus.NOT_FOUND, result := none }]
      { status := DirectionsStatus.NOT_FOUND, result := none }
      (by decide)
  exact ⟨h.1, h.2.1⟩

/-- Helper: the requests issued by the request loop are exactly the
longest prefix of chunks whose endpoints are all present. -/
theorem issueChunkRequests_fst (cs : List (RouteChunk String)) :
    (issueChunkRequests cs).1 = cs.takeWhile RouteChunk.endpointsPresent := by
  induction cs with
  | nil => rfl
  | cons c rest ih =>
    by_cases hc : c.endpointsPresent = true
    · rw [List.takeWhile_cons_of_pos hc]
      show (if c.endpointsPresent then
          (c :: (issueChunkRequests rest).1, (issueChunkRequests rest).2)
        else ([], some missingEndpointMsg)).1 = _
      rw [if_pos hc]
      exact congrArg (List.cons c) ih
    · rw [List.takeWhile_cons_of_neg hc]
      show (if c.endpointsPresent then
          (c :: (issueChunkRequests rest).1, (issueChunkRequests rest).2)
        else ([], some missingEndpointMsg)).1 = _
      rw [if_neg hc]

/-- Helper: if any chunk has a missing endpoint, the request loop
surfaces the missing-endpoint error. -/
theorem issueChunkRequests_err : (cs : List (RouteChunk String)) →
    (c : RouteChunk String) → c ∈ cs → ¬(c.endpointsPresent = true) →
    (issueChunkRequests cs).2 = some missingEndpointMsg
  | [], c, hc, _ => by simp at hc
  | c0 :: rest, c, hc, hbad => by
    by_cases h0 : c0.endpointsPresent = true
    · have hcr : c ∈ rest := by
        rcases List.mem_cons.mp hc with h | h
        · rw [h] at hbad
          exact absurd h0 hbad
        · exact h
      show (if c0.endpointsPresent then
          (c0 :: (issueChunkRequests rest).1, (issueChunkRequests rest).2)
        else ([], some missingEndpointMsg)).2 = _
      rw [if_pos h0]
      exact issueChunkRequests_err rest c hcr hbad
    · show (if c0.endpointsPresent then
          (c0 :: (issueChunkRequests rest).1, (issueChunkRequests rest).2)
        else ([], some missingEndpointMsg)).2 = _
      rw [if_neg h0]

/-- Helper: dropping fewer elements than the length preserves the last
element. -/
theorem getLast?_drop_of_lt (l : List α) (n : Nat) (h : n < l.length) :
    (l.drop n).getLast? = l.getLast? := by
  rw [List.getLast?_eq_getElem?, List.getLast?_eq_getElem?, List.getElem?_drop,
    List.length_drop]
  congr 1
  omega

/-- Helper: some chunk of a chunked route ends at the last location. -/
theorem chunkRoute_exists_dest_getLast (W : Nat) : (l : List α) → 2 ≤ l.length →
    ∃ c ∈ chunkRoute W l, some c.destination = l.getLast? := by
  intro l hl
  match l, hl with
  | a :: b :: rest, _ =>
    by_cases hcase : (a :: b :: rest).length ≤ W + 2
    · refine ⟨_, by rw [chunkRoute_cons_cons]; exact List.mem_cons_self _ _, ?_⟩
      show some ((a :: b :: rest).getD
          (min (W + 1) ((a :: b :: rest).length - 1)) a)
        = (a :: b :: rest).getLast?
      have hlen : (a :: b :: rest).length = rest.length + 2 := by simp
      have hkval : min (W + 1) ((a :: b :: rest).length - 1)
          = (a :: b :: rest).length - 1 := min_eq_right (by omega)
      rw [hkval, List.getLast?_eq_getElem?, List.getD_eq_getElem?_getD,
        List.getElem?_eq_getElem (by omega)]
      rfl
    · have hlen : (a :: b :: rest).length = rest.length + 2 := by simp
      have hdl : 2 ≤ ((a :: b :: rest).drop (W + 1)).length := by
        rw [List.length_drop]
        omega
      obtain ⟨c, hc, hdest⟩ :=
        chunkRoute_exists_dest_getLast W ((a :: b :: rest).drop (W + 1)) hdl
      refine ⟨c, ?_, ?_⟩
      · rw [chunkRoute_cons_cons]
        exact List.mem_cons_of_mem _ hc
      · rw [hdest]
        exact getLast?_drop_of_lt _ _ (by omega)
termination_by l => l.length
decreasing_by simp_all; omega

/-- C5 counterexample: a trip with 26 stops and an empty end location
surfaces the missing-endpoint error, but the request for the first chunk
(whose origin and destination are both non-empty) has already been
issued to the external service — the claim that no request is issued
regardless of the number of stops fails. -/
theorem missing_endpoint_issues_request_counterexample :
    ({ stops := List.replicate 26
          { workOrderId := "w", address := "S", serviceTimeMinutes := 0 },
        startLocation := "A", endLocation := "", totalMiles := 0,
        travelMinutes := 0, serviceMinutes := 0, totalMinutes := 0 } : EdTrip).endLocation
      = "" ∧
    (recalcIssuedRequests
        { stops := List.replicate 26
            { workOrderId := "w", address := "S", serviceTimeMinutes := 0 },
          startLocation := "A", endLocation := "", totalMiles := 0,
          travelMinutes := 0, serviceMinutes := 0, totalMinutes := 0 }).2
      = some missingEndpointMsg ∧
    (recalcIssuedRequests
        { stops := List.replicate 26
            { workOrderId := "w", address := "S", serviceTimeMinutes := 0 },
          startLocation := "A", endLocation := "", totalMiles := 0,
          travelMinutes := 0, serviceMinutes := 0, totalMinutes := 0 }).1.length = 1 ∧
    (1 : Nat) ≠ 0 := by
  refine ⟨rfl, by decide, by decide, by decide⟩

/-- C5 amended: with an empty start or end location the recalculation
surfaces the missing-endpoint error, and the issued requests are exactly
the chunks preceding the first chunk with a missing endpoint; in
particular no request at all is issued when the start is empty, or when
the trip has at most 25 stops (a single chunk, whose origin is the start
and whose destination is the end). -/
theorem missing_endpoint_failfast_amended (trip : EdTrip)
    (h : trip.startLocation = "" ∨ trip.endLocation = "") :
    (recalcIssuedRequests trip).2 = some missingEndpointMsg ∧
    (recalcIssuedRequests trip).1
      = (chunkRoute MAX_WAYPOINTS_PER_REQUEST (tripLocations trip)).takeWhile
          RouteChunk.endpointsPresent ∧
    (trip.startLocation = "" → (recalcIssuedRequests trip).1 = []) ∧
    (trip.stops.length ≤ MAX_WAYPOINTS_PER_REQUEST →
      (recalcIssuedRequests trip).1 = []) := by
  obtain ⟨b, rest2, hshape⟩ : ∃ b rest2,
      trip.stops.map (fun s => s.address) ++ [trip.endLocation] = b :: rest2 := by
    cases hm : trip.stops.map (fun s => s.address) ++ [trip.endLocation] with
    | nil => exact absurd hm (by simp)
    | cons b r => exact ⟨b, r, rfl⟩
  have hloc : tripLocations trip = trip.startLocation :: b :: rest2 := by
    rw [tripLocations, hshape]
  have hlast : (tripLocations trip).getLast? = some trip.endLocation := by
    rw [tripLocations,
      show trip.startLocation :: (trip.stops.map (fun s => s.address)
          ++ [trip.endLocation])
        = (trip.startLocation :: trip.stops.map (fun s => s.address))
          ++ [trip.endLocation] from rfl,
      List.getLast?_append]
    rfl
  have hlen : (tripLocations trip).length = trip.stops.length + 2 := by
    simp [tripLocations]
  have hbad : ∃ c ∈ chunkRoute MAX_WAYPOINTS_PER_REQUEST (tripLocations trip),
      ¬(c.endpointsPresent = true) := by
    rcases h with hs | he
    · rw [hloc, chunkRoute_cons_cons]
      exact ⟨_, List.mem_cons_self _ _, by simp [RouteChunk.endpointsPresent, hs]⟩
    · obtain ⟨c, hc, hdest⟩ := chunkRoute_exists_dest_getLast
        MAX_WAYPOINTS_PER_REQUEST (tripLocations trip) (by omega)
      refine ⟨c, hc, ?_⟩
      rw [hlast, he] at hdest
      have hd : c.destination = "" := by
        injection hdest
      simp [RouteChunk.endpointsPresent, hd]
  obtain ⟨cbad, hcbad, hbadp⟩ := hbad
  refine ⟨issueChunkRequests_err _ cbad hcbad hbadp, issueChunkRequests_fst _,
    ?_, ?_⟩
  · intro hs
    show (issueChunkRequests
        (chunkRoute MAX_WAYPOINTS_PER_REQUEST (tripLocations trip))).1 = []
    rw [issueChunkRequests_fst, hloc, chunkRoute_cons_cons]
    apply List.takeWhile_cons_of_neg
    simp [RouteChunk.endpointsPresent, hs]
  · intro hstops
    show (issueChunkRequests
        (chunkRoute MAX_WAYPOINTS_PER_REQUEST (tripLocations trip))).1 = []
    rw [issueChunkRequests_fst, hloc, chunkRoute_cons_cons]
    have hlen2 : (trip.startLocation :: b :: rest2).length = trip.stops.length + 2 := by
      rw [← hloc]
      exact hlen
    have hmax : MAX_WAYPOINTS_PER_REQUEST = 25 := rfl
    have hkval : min (MAX_WAYPOINTS_PER_REQUEST + 1)
        ((trip.startLocation :: b :: rest2).length - 1)
        = (trip.startLocation :: b :: rest2).length - 1 := by
      apply min_eq_right
      omega
    have hdst : (trip.startLocation :: b :: rest2).getD
        ((trip.startLocation :: b :: rest2).length - 1) trip.startLocation
        = trip.endLocation := by
      have h1 : (trip.startLocation :: b :: rest2).getLast?
          = some trip.endLocation := by
        rw [← hloc]
        exact hlast
      rw [List.getLast?_eq_getElem?] at h1
      rw [List.getD_eq_getElem?_getD, h1]
      rfl
    apply List.takeWhile_cons_of_neg
    rcases h with hs | he
    · simp [RouteChunk.endpointsPresent, hs]
    · rw [show (RouteChunk.endpointsPresent
          { origin := trip.startLocation,
            waypoints := ((trip.startLocation :: b :: rest2).drop 1).take
              (min (MAX_WAYPOINTS_PER_REQUEST + 1)
                ((trip.startLocation :: b :: rest2).length - 1) - 1),
            destination := (trip.startLocation :: b :: rest2).getD
              (min (MAX_WAYPOINTS_PER_REQUEST + 1)
                ((trip.startLocation :: b :: rest2).length - 1))
              trip.startLocation })
          = (!(trip.startLocation = "") &&
             !((trip.startLocation :: b :: rest2).getD
                (min (MAX_WAYPOINTS_PER_REQUEST + 1)
                  ((trip.startLocation :: b :: rest2).length - 1))
                trip.startLocation = "")) from rfl]
      rw [hkval, hdst, he]
      simp

/-- Witness for C5 amended: a trip with an empty start location and no
stops issues no request and surfaces the missing-endpoint error. -/
theorem missing_endpoint_failfast_amended_witness :
    (recalcIssuedRequests
        { stops := [], startLocation := "", endLocation := "E", totalMiles := 0,
          travelMinutes := 0, serviceMinutes := 0, totalMinutes := 0 }).2
      = some missingEndpointMsg ∧
    (recalcIssuedRequests
        { stops := [], startLocation := "", endLocation := "E", totalMiles := 0,
          travelMinutes := 0, serviceMinutes := 0, totalMinutes := 0 }).1 = [] := by
  have h := missing_endpoint_failfast_amended
      { stops := [], startLocation := "", endLocation := "E", totalMiles := 0,
        travelMinutes := 0, serviceMinutes := 0, totalMinutes := 0 }
      (Or.inl rfl)
  exact ⟨h.1, h.2.2.1 rfl⟩

end Spec2Proof
